import Mathlib

/-!
Shallow embedding of the Debi face animation engine
(`examples/factory_firmware/main/view/ui_face.c` v2 and
`examples/factory_firmware/main/view/ui_face_states.c` v2).

C `float` arithmetic is modelled by exact rational arithmetic (`ℚ`);
C `int` / `lv_coord_t` by `ℤ`; `uint32_t` colours by `ℕ`.  The C library
`rand()` is modelled by an explicit list of natural numbers consumed in
program order; `sinf` (an external math-library function) is a parameter
of the renderer.  Casts `(lv_coord_t)x` / `(lv_opa_t)x` from `float`
truncate toward zero, modelled by `truncQ`.
-/

namespace UiFace

/-- `eye_style_t` from ui_face.h. -/
inductive EyeStyle
  | squared
  | heart
  | crescent
  | closed
  | worried
  | police
deriving DecidableEq, Repr

/-- `face_gaze_t`: gaze vector. -/
structure FaceGaze where
  x : ℚ
  y : ℚ
deriving DecidableEq, Repr

/-- `face_params_t`: the full parameter snapshot. -/
structure FaceParams where
  eye_openness : ℚ
  eye_size : ℚ
  pupil_size : ℚ
  gaze : FaceGaze
  eye_style : EyeStyle
  mouth_smile : ℚ
  mouth_open : ℚ
  mouth_width : ℚ
  happiness : ℚ
  brightness : ℚ
  primary_color : ℕ
  secondary_color : ℕ
  glow_intensity : ℚ
  pulse : Bool
  pulse_speed : ℚ
  flash : Bool
  talking : Bool
  sparkle : Bool
  love_bubbles : Bool
  alert_police : Bool
  show_alert_text : Bool
deriving DecidableEq, Repr

/-- The module-level mutable animation state of ui_face.c
(`s_cur`, `s_tgt`, `s_trans_progress`, `s_trans_speed`, `s_blink_timer`,
`s_blink_phase`, `s_wander_timer`, `s_frame`). -/
structure FaceState where
  s_cur : FaceParams
  s_tgt : FaceParams
  s_trans_progress : ℚ
  s_trans_speed : ℚ
  s_blink_timer : ℤ
  s_blink_phase : ℤ
  s_wander_timer : ℤ
  s_frame : ℕ
deriving DecidableEq, Repr

/-- `BLINK_HALF_TICKS` (ui_face.c line 30). -/
def BLINK_HALF_TICKS : ℤ := 6

/-- `lerpf` (ui_face.c line 34). -/
def lerpf (a b t : ℚ) : ℚ := a + (b - a) * t

/-- `ease_in_out` (ui_face.c lines 35-38); `powf(x,2)` is `x^2`. -/
def ease_in_out (t : ℚ) : ℚ :=
  if t < 1/2 then 2 * t * t
  else 1 - (-2 * t + 2) ^ 2 / 2

/-- `clampf` (ui_face.c lines 39-41). -/
def clampf (v lo hi : ℚ) : ℚ :=
  if v < lo then lo else if v > hi then hi else v

/-- C cast from `float` to an integer type: truncation toward zero. -/
def truncQ (q : ℚ) : ℤ := if q < 0 then -(⌊-q⌋) else ⌊q⌋

/-- `fmodf`: IEEE remainder with truncated quotient. -/
def fmodf (x y : ℚ) : ℚ := x - y * (truncQ (x / y) : ℚ)

/-- `rand()`: pop the next value off the modelled random stream.
An exhausted stream yields 0. -/
def randNext : List ℕ → ℕ × List ℕ
  | [] => (0, [])
  | n :: r => (n, r)

/-- First paragraph of `face_animate_step` (ui_face.c lines 56-70):
advance the transition and interpolate the continuous fields.
`pupil_size` is absent from the source's interpolation list. -/
def face_step_transition (st : FaceState) : FaceState :=
  if st.s_trans_progress < 1 then
    let p0 := st.s_trans_progress + st.s_trans_speed
    let p := if p0 > 1 then 1 else p0
    let t := ease_in_out p
    { st with
      s_trans_progress := p
      s_cur := { st.s_cur with
        eye_openness   := lerpf st.s_cur.eye_openness   st.s_tgt.eye_openness   t
        eye_size       := lerpf st.s_cur.eye_size       st.s_tgt.eye_size       t
        gaze := { x    := lerpf st.s_cur.gaze.x         st.s_tgt.gaze.x         t
                  y    := lerpf st.s_cur.gaze.y         st.s_tgt.gaze.y         t }
        mouth_smile    := lerpf st.s_cur.mouth_smile    st.s_tgt.mouth_smile    t
        mouth_open     := lerpf st.s_cur.mouth_open     st.s_tgt.mouth_open     t
        mouth_width    := lerpf st.s_cur.mouth_width    st.s_tgt.mouth_width    t
        happiness      := lerpf st.s_cur.happiness      st.s_tgt.happiness      t
        brightness     := lerpf st.s_cur.brightness     st.s_tgt.brightness     t
        glow_intensity := lerpf st.s_cur.glow_intensity st.s_tgt.glow_intensity t } }
  else st

/-- Second paragraph of `face_animate_step` (ui_face.c lines 71-81):
unconditionally copy the discrete/flag fields from target to current. -/
def face_step_discrete (st : FaceState) : FaceState :=
  { st with s_cur := { st.s_cur with
      eye_style       := st.s_tgt.eye_style
      pulse           := st.s_tgt.pulse
      pulse_speed     := st.s_tgt.pulse_speed
      flash           := st.s_tgt.flash
      talking         := st.s_tgt.talking
      sparkle         := st.s_tgt.sparkle
      love_bubbles    := st.s_tgt.love_bubbles
      alert_police    := st.s_tgt.alert_police
      show_alert_text := st.s_tgt.show_alert_text
      primary_color   := st.s_tgt.primary_color
      secondary_color := st.s_tgt.secondary_color } }

/-- Third paragraph of `face_animate_step` (ui_face.c lines 82-89):
blink countdown and timer-driven blink start, then the phase decrement. -/
def face_step_blink (st : FaceState) (rnd : List ℕ) : FaceState × List ℕ :=
  let step1 :=
    if st.s_cur.eye_style = EyeStyle.squared ∨ st.s_cur.eye_style = EyeStyle.worried then
      let bt := st.s_blink_timer - 1
      if bt ≤ 0 ∧ st.s_blink_phase = 0 then
        ({ st with s_blink_phase := BLINK_HALF_TICKS * 2
                   s_blink_timer := 180 + (((randNext rnd).1 % 300 : ℕ) : ℤ) },
         (randNext rnd).2)
      else
        ({ st with s_blink_timer := bt }, rnd)
    else (st, rnd)
  let st1 := step1.1
  let st2 :=
    if st1.s_blink_phase > 0 then { st1 with s_blink_phase := st1.s_blink_phase - 1 } else st1
  (st2, step1.2)

/-- Fourth paragraph of `face_animate_step` (ui_face.c lines 90-95):
gaze wander countdown and randomized target-gaze reseed. -/
def face_step_wander (st : FaceState) (rnd : List ℕ) : FaceState × List ℕ :=
  let wt := st.s_wander_timer - 1
  if wt ≤ 0 then
    let r1 := (randNext rnd).1
    let rnd1 := (randNext rnd).2
    let r2 := (randNext rnd1).1
    let rnd2 := (randNext rnd1).2
    let r3 := (randNext rnd2).1
    let rnd3 := (randNext rnd2).2
    ({ st with
       s_tgt := { st.s_tgt with gaze :=
         { x := (((r1 % 100 : ℕ) : ℚ) / 100 - 1/2) * 6
           y := (((r2 % 100 : ℕ) : ℚ) / 100 - 1/2) * 3 } }
       s_wander_timer := 120 + ((r3 % 240 : ℕ) : ℤ) }, rnd3)
  else
    ({ st with s_wander_timer := wt }, rnd)

/-- `face_animate_step` (ui_face.c lines 55-96), in source order. -/
def face_animate_step (st : FaceState) (rnd : List ℕ) : FaceState × List ℕ :=
  let st1 := face_step_transition st
  let st2 := face_step_discrete st1
  let br := face_step_blink st2 rnd
  face_step_wander br.1 br.2

/-- `face_tick_cb` (ui_face.c lines 468-473): one timer tick increments
the frame counter and runs the animation step.  (The redraw request is
host-surface glue and carries no animation state.) -/
def face_tick_cb (st : FaceState) (rnd : List ℕ) : FaceState × List ℕ :=
  face_animate_step { st with s_frame := st.s_frame + 1 } rnd

/-- Iterate `face_tick_cb` `n` times, threading the random stream. -/
def ticks : ℕ → FaceState → List ℕ → FaceState × List ℕ
  | 0, st, rnd => (st, rnd)
  | n + 1, st, rnd => ticks n (face_tick_cb st rnd).1 (face_tick_cb st rnd).2

/-- `blink_mul` (ui_face.c lines 98-104). -/
def blink_mul (st : FaceState) : ℚ :=
  if st.s_blink_phase ≤ 0 then 1
  else if st.s_blink_phase > BLINK_HALF_TICKS then
    lerpf 1 0 (((BLINK_HALF_TICKS * 2 - st.s_blink_phase : ℤ) : ℚ) / (BLINK_HALF_TICKS : ℚ))
  else
    lerpf 0 1 (((BLINK_HALF_TICKS - st.s_blink_phase : ℤ) : ℚ) / (BLINK_HALF_TICKS : ℚ))

/- ── Colour palette (ui_face.h) ── -/

def DEBI_COLOR_CYAN : ℕ := 0x38BDF8
def DEBI_COLOR_WHITE : ℕ := 0xE2E8F0
def DEBI_COLOR_PINK : ℕ := 0xF472B6
def DEBI_COLOR_RED : ℕ := 0xFF3333
def DEBI_COLOR_POLICE_BLUE : ℕ := 0x3366FF
def DEBI_COLOR_BG : ℕ := 0x0F172A
def DEBI_COLOR_AMBER : ℕ := 0xF59E0B
def DEBI_COLOR_ORANGE : ℕ := 0xF97316
def DEBI_COLOR_GREY : ℕ := 0x94A3B8

/-- `DEFAULT_PARAMS` (ui_face.c lines 475-485). -/
def DEFAULT_PARAMS : FaceParams :=
  { eye_openness := (75/100 : ℚ), eye_size := 1, pupil_size := (85/100 : ℚ)
    gaze := { x := 0, y := 0 }, eye_style := EyeStyle.squared
    mouth_smile := (4/10 : ℚ), mouth_open := 0, mouth_width := (105/100 : ℚ)
    happiness := (3/10 : ℚ), brightness := 1
    primary_color := DEBI_COLOR_CYAN, secondary_color := DEBI_COLOR_PINK
    glow_intensity := (45/100 : ℚ)
    pulse := false, pulse_speed := 1, flash := false
    talking := false, sparkle := false
    love_bubbles := false, alert_police := false, show_alert_text := false }

/-- The animation state right after `ui_face_init` (ui_face.c lines 487-501),
together with the static initializers of the module variables
(`s_trans_speed = 0.04`, `s_blink_timer = 120`, `s_wander_timer = 60`). -/
def ui_face_init_state : FaceState :=
  { s_cur := DEFAULT_PARAMS, s_tgt := DEFAULT_PARAMS
    s_trans_progress := 1, s_trans_speed := (4/100 : ℚ)
    s_blink_timer := 120, s_blink_phase := 0
    s_wander_timer := 60, s_frame := 0 }

/-- `ui_face_set_params` (ui_face.c lines 508-514); the C NULL pointer is
`none`. -/
def ui_face_set_params (st : FaceState) (p : Option FaceParams) (ms : ℕ) : FaceState :=
  match p with
  | none => st
  | some p =>
    if ms = 0 then
      { st with s_cur := p, s_tgt := p, s_trans_progress := 1 }
    else
      let tk : ℚ := (ms : ℚ) / 33
      { st with s_tgt := p, s_trans_progress := 0
                s_trans_speed := if tk > 0 then 1 / tk else 1 }

/-- `ui_face_get_params` (ui_face.c line 516). -/
def ui_face_get_params (st : FaceState) : FaceParams := st.s_cur

/-- `ui_face_blink` (ui_face.c line 517). -/
def ui_face_blink (st : FaceState) : FaceState :=
  { st with s_blink_phase := BLINK_HALF_TICKS * 2 }

/-- `ui_face_look` (ui_face.c lines 518-521). -/
def ui_face_look (st : FaceState) (x y : ℚ) : FaceState :=
  { st with s_tgt := { st.s_tgt with gaze :=
      { x := clampf x (-15) 15, y := clampf y (-10) 10 } } }

/- ── ui_face_states.c (v2): the preset table and state selector ── -/

/-- `FACE_STATE_COUNT` (ui_face_states.h): the `face_state_t` enum has 15
members, IDLE=0 … ERROR=14. -/
def FACE_STATE_COUNT : ℕ := 15

/-- `DEBI_FACE_TRANSITION_MS` (ui_face_states.c). -/
def DEBI_FACE_TRANSITION_MS : ℕ := 400

/-- The `PRESETS` table (ui_face_states.c v2 lines 297-478), indexed by the
numeric value of `face_state_t`.  Indices ≥ `FACE_STATE_COUNT` are never
read: `ui_face_set_state` guards them away (they would be out-of-bounds
array reads in C); the catch-all arm is arbitrary. -/
def PRESETS : ℕ → FaceParams
  | 0 => /- IDLE -/
    { eye_openness := (75/100 : ℚ), eye_size := 1, pupil_size := (85/100 : ℚ)
      gaze := { x := 0, y := 0 }, eye_style := EyeStyle.squared
      mouth_smile := (4/10 : ℚ), mouth_open := 0, mouth_width := (105/100 : ℚ)
      happiness := (3/10 : ℚ), brightness := 1
      primary_color := DEBI_COLOR_CYAN, secondary_color := DEBI_COLOR_PINK
      glow_intensity := (45/100 : ℚ)
      pulse := false, pulse_speed := 1, flash := false
      talking := false, sparkle := false
      love_bubbles := false, alert_police := false, show_alert_text := false }
  | 1 => /- PRESENCE -/
    { eye_openness := (92/100 : ℚ), eye_size := (112/100 : ℚ), pupil_size := (95/100 : ℚ)
      gaze := { x := 0, y := 0 }, eye_style := EyeStyle.squared
      mouth_smile := (55/100 : ℚ), mouth_open := 0, mouth_width := (115/100 : ℚ)
      happiness := (5/10 : ℚ), brightness := 1
      primary_color := DEBI_COLOR_CYAN, secondary_color := DEBI_COLOR_PINK
      glow_intensity := (65/100 : ℚ)
      pulse := false, pulse_speed := 1, flash := false
      talking := false, sparkle := false
      love_bubbles := false, alert_police := false, show_alert_text := false }
  | 2 => /- HAPPY -/
    { eye_openness := (3/10 : ℚ), eye_size := (13/10 : ℚ), pupil_size := 1
      gaze := { x := 0, y := 0 }, eye_style := EyeStyle.crescent
      mouth_smile := 1, mouth_open := (15/100 : ℚ), mouth_width := (145/100 : ℚ)
      happiness := 1, brightness := 1
      primary_color := DEBI_COLOR_CYAN, secondary_color := DEBI_COLOR_PINK
      glow_intensity := (85/100 : ℚ)
      pulse := false, pulse_speed := 1, flash := false
      talking := false, sparkle := true
      love_bubbles := false, alert_police := false, show_alert_text := false }
  | 3 => /- LOVE -/
    { eye_openness := 1, eye_size := (11/10 : ℚ), pupil_size := 1
      gaze := { x := 0, y := 0 }, eye_style := EyeStyle.heart
      mouth_smile := (6/10 : ℚ), mouth_open := 0, mouth_width := 1
      happiness := (9/10 : ℚ), brightness := 1
      primary_color := DEBI_COLOR_CYAN, secondary_color := DEBI_COLOR_PINK
      glow_intensity := (7/10 : ℚ)
      pulse := false, pulse_speed := 1, flash := false
      talking := false, sparkle := false
      love_bubbles := true, alert_police := false, show_alert_text := false }
  | 4 => /- LISTENING -/
    { eye_openness := 1, eye_size := (115/100 : ℚ), pupil_size := 1
      gaze := { x := 0, y := 1 }, eye_style := EyeStyle.squared
      mouth_smile := (15/100 : ℚ), mouth_open := (5/100 : ℚ), mouth_width := (9/10 : ℚ)
      happiness := (15/100 : ℚ), brightness := 1
      primary_color := DEBI_COLOR_WHITE, secondary_color := DEBI_COLOR_PINK
      glow_intensity := (9/10 : ℚ)
      pulse := true, pulse_speed := (15/10 : ℚ), flash := false
      talking := false, sparkle := false
      love_bubbles := false, alert_police := false, show_alert_text := false }
  | 5 => /- CONCERNED -/
    { eye_openness := (85/100 : ℚ), eye_size := 1, pupil_size := (7/10 : ℚ)
      gaze := { x := 0, y := 3 }, eye_style := EyeStyle.worried
      mouth_smile := -(3/10 : ℚ), mouth_open := 0, mouth_width := (85/100 : ℚ)
      happiness := 0, brightness := 1
      primary_color := DEBI_COLOR_AMBER, secondary_color := DEBI_COLOR_PINK
      glow_intensity := (6/10 : ℚ)
      pulse := true, pulse_speed := (8/10 : ℚ), flash := false
      talking := false, sparkle := false
      love_bubbles := false, alert_police := false, show_alert_text := false }
  | 6 => /- ALERT_FALL -/
    { eye_openness := 1, eye_size := (12/10 : ℚ), pupil_size := (45/100 : ℚ)
      gaze := { x := 0, y := 0 }, eye_style := EyeStyle.police
      mouth_smile := -(5/10 : ℚ), mouth_open := 0, mouth_width := 1
      happiness := 0, brightness := 1
      primary_color := DEBI_COLOR_RED, secondary_color := DEBI_COLOR_PINK
      glow_intensity := 1
      pulse := true, pulse_speed := 3, flash := false
      talking := false, sparkle := false
      love_bubbles := false, alert_police := true, show_alert_text := true }
  | 7 => /- ALERT_STILL -/
    { eye_openness := (9/10 : ℚ), eye_size := (11/10 : ℚ), pupil_size := (6/10 : ℚ)
      gaze := { x := 0, y := 0 }, eye_style := EyeStyle.police
      mouth_smile := -(35/100 : ℚ), mouth_open := 0, mouth_width := (9/10 : ℚ)
      happiness := 0, brightness := 1
      primary_color := DEBI_COLOR_ORANGE, secondary_color := DEBI_COLOR_PINK
      glow_intensity := (8/10 : ℚ)
      pulse := true, pulse_speed := (12/10 : ℚ), flash := false
      talking := false, sparkle := false
      love_bubbles := false, alert_police := true, show_alert_text := true }
  | 8 => /- ALERT_BABY -/
    { eye_openness := 1, eye_size := (12/10 : ℚ), pupil_size := (55/100 : ℚ)
      gaze := { x := 0, y := 0 }, eye_style := EyeStyle.police
      mouth_smile := -(55/100 : ℚ), mouth_open := 0, mouth_width := (9/10 : ℚ)
      happiness := 0, brightness := 1
      primary_color := DEBI_COLOR_RED, secondary_color := DEBI_COLOR_PINK
      glow_intensity := 1
      pulse := true, pulse_speed := 4, flash := false
      talking := false, sparkle := false
      love_bubbles := false, alert_police := true, show_alert_text := true }
  | 9 => /- ALERT_HEART -/
    { eye_openness := 1, eye_size := (13/10 : ℚ), pupil_size := (35/100 : ℚ)
      gaze := { x := 0, y := 0 }, eye_style := EyeStyle.police
      mouth_smile := -(65/100 : ℚ), mouth_open := 0, mouth_width := (11/10 : ℚ)
      happiness := 0, brightness := 1
      primary_color := DEBI_COLOR_RED, secondary_color := DEBI_COLOR_PINK
      glow_intensity := 1
      pulse := true, pulse_speed := 6, flash := false
      talking := false, sparkle := false
      love_bubbles := false, alert_police := true, show_alert_text := true }
  | 10 => /- NIGHT -/
    { eye_openness := 0, eye_size := (8/10 : ℚ), pupil_size := 0
      gaze := { x := 0, y := 0 }, eye_style := EyeStyle.closed
      mouth_smile := (2/10 : ℚ), mouth_open := 0, mouth_width := (7/10 : ℚ)
      happiness := (2/10 : ℚ), brightness := (15/100 : ℚ)
      primary_color := DEBI_COLOR_CYAN, secondary_color := DEBI_COLOR_PINK
      glow_intensity := (1/10 : ℚ)
      pulse := false, pulse_speed := 1, flash := false
      talking := false, sparkle := false
      love_bubbles := false, alert_police := false, show_alert_text := false }
  | 11 => /- TALKING -/
    { eye_openness := (8/10 : ℚ), eye_size := (105/100 : ℚ), pupil_size := (85/100 : ℚ)
      gaze := { x := 0, y := 0 }, eye_style := EyeStyle.squared
      mouth_smile := (3/10 : ℚ), mouth_open := (5/10 : ℚ), mouth_width := (11/10 : ℚ)
      happiness := (3/10 : ℚ), brightness := 1
      primary_color := DEBI_COLOR_CYAN, secondary_color := DEBI_COLOR_PINK
      glow_intensity := (5/10 : ℚ)
      pulse := false, pulse_speed := 1, flash := false
      talking := true, sparkle := false
      love_bubbles := false, alert_police := false, show_alert_text := false }
  | 12 => /- BOOT -/
    { eye_openness := 0, eye_size := 0, pupil_size := 0
      gaze := { x := 0, y := 0 }, eye_style := EyeStyle.squared
      mouth_smile := 0, mouth_open := 0, mouth_width := 0
      happiness := 0, brightness := 0
      primary_color := DEBI_COLOR_CYAN, secondary_color := DEBI_COLOR_PINK
      glow_intensity := 0
      pulse := false, pulse_speed := 1, flash := false
      talking := false, sparkle := false
      love_bubbles := false, alert_police := false, show_alert_text := false }
  | 13 => /- SETUP -/
    { eye_openness := 1, eye_size := (12/10 : ℚ), pupil_size := 1
      gaze := { x := 5, y := 0 }, eye_style := EyeStyle.squared
      mouth_smile := (55/100 : ℚ), mouth_open := (8/100 : ℚ), mouth_width := (12/10 : ℚ)
      happiness := (5/10 : ℚ), brightness := 1
      primary_color := DEBI_COLOR_CYAN, secondary_color := DEBI_COLOR_PINK
      glow_intensity := (7/10 : ℚ)
      pulse := true, pulse_speed := 1, flash := false
      talking := false, sparkle := false
      love_bubbles := false, alert_police := false, show_alert_text := false }
  | 14 => /- ERROR -/
    { eye_openness := (6/10 : ℚ), eye_size := (9/10 : ℚ), pupil_size := (5/10 : ℚ)
      gaze := { x := -3, y := 2 }, eye_style := EyeStyle.worried
      mouth_smile := -(15/100 : ℚ), mouth_open := (5/100 : ℚ), mouth_width := (8/10 : ℚ)
      happiness := 0, brightness := (7/10 : ℚ)
      primary_color := DEBI_COLOR_GREY, secondary_color := DEBI_COLOR_PINK
      glow_intensity := (2/10 : ℚ)
      pulse := false, pulse_speed := 1, flash := false
      talking := false, sparkle := false
      love_bubbles := false, alert_police := false, show_alert_text := false }
  | _ => DEFAULT_PARAMS

/-- The combined state of ui_face_states.c (`s_state`) and the underlying
face engine it drives. -/
structure StatesCtx where
  s_state : ℕ
  face : FaceState
deriving DecidableEq, Repr

/-- `ui_face_set_state` (ui_face_states.c v2 lines 485-497).  The
`face_state_t` argument is modelled by its numeric value:
ALERT_FALL=6 … ALERT_HEART=9, NIGHT=10, HAPPY=2, LOVE=3. -/
def ui_face_set_state (ctx : StatesCtx) (state : ℕ) : StatesCtx :=
  if FACE_STATE_COUNT ≤ state then ctx
  else if state = ctx.s_state then ctx
  else
    let ms : ℕ :=
      if 6 ≤ state ∧ state ≤ 9 then 150
      else if state = 10 then 1000
      else if state = 2 then 350
      else if state = 3 then 400
      else DEBI_FACE_TRANSITION_MS
    { s_state := state
      face := ui_face_set_params ctx.face (some (PRESETS state)) ms }

/-- `ui_face_get_state` (ui_face_states.c v2 line 499). -/
def ui_face_get_state (ctx : StatesCtx) : ℕ := ctx.s_state

/- ── Renderer (ui_face.c draw callbacks) ──
The LVGL drawing surface is external: each `lv_draw_*` call is modelled as
an emitted primitive.  `sinf` from the host math library is a parameter
`sinq`.  Opacities stay as the truncated integers the C casts produce. -/

/-- Layout constants from ui_face.h (int arithmetic already folded:
`FACE_CX = 466/2`). -/
def DEBI_DISPLAY_WIDTH : ℤ := 466
def DEBI_DISPLAY_HEIGHT : ℤ := 466
def FACE_CX : ℤ := 233
def FACE_CY : ℤ := 233
def FACE_RADIUS : ℤ := 233
def FACE_EYE_SPACING : ℤ := 82
def FACE_EYE_Y_OFF : ℤ := -30
def FACE_EYE_W : ℤ := 80
def FACE_EYE_H : ℤ := 86
def FACE_EYE_R : ℤ := 18
def FACE_MOUTH_Y_OFF : ℤ := 80
def FACE_MOUTH_BASE_W : ℤ := 58
def FACE_CURVE_SEGS : ℕ := 16
def FACE_HL_SIZE : ℤ := 18
def FACE_HL_R : ℤ := 5
def FACE_MAX_HEARTS : ℕ := 10
def LV_RADIUS_CIRCLE : ℤ := 0x7FFF
def LV_COLOR_WHITE : ℕ := 0xFFFFFF

/-- One declarative draw primitive handed to the LVGL surface.
`rect` carries the `lv_area_t` corners as emitted by `lv_draw_rect`;
`line` and `arc` mirror `lv_draw_line` / `lv_draw_arc`. -/
inductive Prim
  | rect (x1 y1 x2 y2 radius : ℤ) (color : ℕ) (opa : ℤ)
  | line (x0 y0 x1 y1 : ℤ) (color : ℕ) (opa width : ℤ)
  | arc (cx cy radius a0 a1 : ℤ) (color : ℕ) (opa width : ℤ)
deriving DecidableEq, Repr

/-- `qbezier` (ui_face.c lines 48-53). -/
def qbezier (x0 y0 cx cy x1 y1 t : ℚ) : ℚ × ℚ :=
  let u := 1 - t
  (u * u * x0 + 2 * u * t * cx + t * t * x1,
   u * u * y0 + 2 * u * t * cy + t * t * y1)

/-- `draw_rounded_rect` (ui_face.c lines 106-111). -/
def draw_rounded_rect (x y w h r : ℤ) (c : ℕ) (o : ℤ) : List Prim :=
  [Prim.rect x y (x + w - 1) (y + h - 1) r c o]

/-- `draw_filled_circle` (ui_face.c lines 113-118). -/
def draw_filled_circle (cx cy r : ℤ) (c : ℕ) (o : ℤ) : List Prim :=
  [Prim.rect (cx - r) (cy - r) (cx + r) (cy + r) LV_RADIUS_CIRCLE c o]

/-- `draw_line_seg` (ui_face.c lines 134-140). -/
def draw_line_seg (x0 y0 x1 y1 : ℤ) (c : ℕ) (o w : ℤ) : List Prim :=
  [Prim.line x0 y0 x1 y1 c o w]

/-- `draw_qbezier` (ui_face.c lines 120-132): a polyline of
`FACE_CURVE_SEGS` sampled segments. -/
def draw_qbezier (x0 y0 cpx cpy x1 y1 : ℚ) (c : ℕ) (o w : ℤ) : List Prim :=
  (List.range FACE_CURVE_SEGS).map fun i =>
    let p := qbezier x0 y0 cpx cpy x1 y1 ((i : ℚ) / (FACE_CURVE_SEGS : ℚ))
    let n := qbezier x0 y0 cpx cpy x1 y1 (((i : ℚ) + 1) / (FACE_CURVE_SEGS : ℚ))
    Prim.line (truncQ p.1) (truncQ p.2) (truncQ n.1) (truncQ n.2) c o w

/-- `draw_heart_shape` (ui_face.c lines 142-161). -/
def draw_heart_shape (hx hy size : ℚ) (col : ℕ) (opa : ℤ) : List Prim :=
  let r := size * (32/100 : ℚ)
  let off := size * (28/100 : ℚ)
  draw_filled_circle (truncQ (hx - off)) (truncQ (hy - size * (12/100 : ℚ))) (truncQ r) col opa ++
  draw_filled_circle (truncQ (hx + off)) (truncQ (hy - size * (12/100 : ℚ))) (truncQ r) col opa ++
  draw_rounded_rect (truncQ (hx - off)) (truncQ (hy - size * (12/100 : ℚ)))
    (truncQ (off * 2)) (truncQ (size * (5/10 : ℚ))) 2 col opa ++
  ((List.range 6).flatMap fun i =>
    let frac : ℚ := (i : ℚ) / 6
    let w0 := off * 2 * (1 - frac)
    let y := hy + size * (12/100 : ℚ) + size * (5/10 : ℚ) * frac
    let w := if w0 < 3 then 3 else w0
    draw_rounded_rect (truncQ (hx - w / 2)) (truncQ y)
      (truncQ w) (truncQ (size * (9/100 : ℚ) + 2)) 1 col opa) ++
  draw_filled_circle (truncQ (hx - off * (7/10 : ℚ))) (truncQ (hy - size * (28/100 : ℚ)))
    (truncQ (r * (45/100 : ℚ))) LV_COLOR_WHITE (Int.tdiv (opa * 45) 100)

/-- `draw_heart_eyes` (ui_face.c lines 163-174). -/
def draw_heart_eyes (sinq : ℚ → ℚ) (st : FaceState) : List Prim :=
  let b := st.s_cur.brightness
  let sz := st.s_cur.eye_size
  let gx := st.s_cur.gaze.x * 2
  let gy := st.s_cur.gaze.y * (15/10 : ℚ)
  let col := st.s_cur.secondary_color
  let pulse := 1 + (8/100 : ℚ) * sinq ((st.s_frame : ℚ) * (8/100 : ℚ))
  let hsz := 72 * sz * pulse
  ([-1, 1] : List ℤ).flatMap fun side =>
    let ex := (FACE_CX : ℚ) + (side : ℚ) * (FACE_EYE_SPACING : ℚ) * sz + gx
    let ey := (FACE_CY : ℚ) + (FACE_EYE_Y_OFF : ℚ) + 4 + gy
    draw_heart_shape ex ey hsz col (truncQ (b * 245))

/-- `draw_closed_eyes` (ui_face.c lines 176-204). -/
def draw_closed_eyes (st : FaceState) : List Prim :=
  let b := st.s_cur.brightness
  let sz := st.s_cur.eye_size
  let col := st.s_cur.primary_color
  (([-1, 1] : List ℤ).flatMap fun side =>
    let ex := (FACE_CX : ℚ) + (side : ℚ) * (FACE_EYE_SPACING : ℚ) * sz
    let ey := (FACE_CY : ℚ) + (FACE_EYE_Y_OFF : ℚ) + 6
    draw_qbezier (ex - 34 * sz) ey ex (ey + 18 * sz) (ex + 34 * sz) ey
      col (truncQ (b * 200)) (truncQ (7 * sz))) ++
  (let t := (st.s_frame : ℚ) * (33/1000 : ℚ)
   (List.range 3).flatMap fun i =>
     let phase := fmodf (t * (35/100 : ℚ) + (i : ℚ) * (8/10 : ℚ)) 3
     if phase > (25/10 : ℚ) then [] else
     let alpha1 := if phase < (3/10 : ℚ) then phase / (3/10 : ℚ) else 1
     let alpha := if phase > 2 then ((25/10 : ℚ) - phase) / (5/10 : ℚ) else alpha1
     if alpha < (2/100 : ℚ) then [] else
     let zx := (FACE_CX : ℚ) + 90 + phase * 25
     let zy := (FACE_CY : ℚ) - 45 - phase * 35
     let zs : ℤ := 10 + (i : ℤ) * 4
     let za := truncQ (alpha * b * 180)
     draw_line_seg (truncQ zx) (truncQ zy)
       (truncQ (zx + (zs : ℚ))) (truncQ zy) col za 3 ++
     draw_line_seg (truncQ (zx + (zs : ℚ))) (truncQ zy)
       (truncQ zx) (truncQ (zy + (zs : ℚ))) col za 3 ++
     draw_line_seg (truncQ zx) (truncQ (zy + (zs : ℚ)))
       (truncQ (zx + (zs : ℚ))) (truncQ (zy + (zs : ℚ))) col za 3)

/-- `draw_police_eyes` (ui_face.c lines 206-225). -/
def draw_police_eyes (st : FaceState) : List Prim :=
  let b := st.s_cur.brightness
  let sz := st.s_cur.eye_size
  let fc := (st.s_frame / 6) % 2
  let cl := if fc ≠ 0 then DEBI_COLOR_RED else DEBI_COLOR_POLICE_BLUE
  let cr := if fc ≠ 0 then DEBI_COLOR_POLICE_BLUE else DEBI_COLOR_RED
  let ew := truncQ ((FACE_EYE_W : ℚ) * sz)
  let eh := truncQ ((FACE_EYE_H : ℚ) * sz)
  let er := truncQ ((FACE_EYE_R : ℚ) * sz)
  ([-1, 1] : List ℤ).flatMap fun side =>
    let ex := (FACE_CX : ℚ) + (side : ℚ) * (FACE_EYE_SPACING : ℚ) * sz
    let ey := (FACE_CY : ℚ) + (FACE_EYE_Y_OFF : ℚ)
    let ec := if side < 0 then cl else cr
    draw_rounded_rect (truncQ (ex - (Int.tdiv ew 2 : ℚ)))
      (truncQ (ey - (Int.tdiv eh 2 : ℚ))) ew eh er ec (truncQ (b * 245)) ++
    draw_rounded_rect (truncQ (ex - (Int.tdiv ew 2 : ℚ) - 6))
      (truncQ (ey - (Int.tdiv eh 2 : ℚ) - 6)) (ew + 12) (eh + 12) (er + 4)
      ec (truncQ (b * 40)) ++
    (let hs := truncQ ((FACE_HL_SIZE : ℚ) * sz)
     draw_rounded_rect (truncQ (ex - (Int.tdiv ew 2 : ℚ) + 8 * sz))
       (truncQ (ey - (Int.tdiv eh 2 : ℚ) + 8 * sz)) hs hs
       (truncQ ((FACE_HL_R : ℚ) * sz)) LV_COLOR_WHITE (truncQ (b * 200)))

/-- `draw_police_flash_bg` (ui_face.c lines 227-240). -/
def draw_police_flash_bg (sinq : ℚ → ℚ) (st : FaceState) : List Prim :=
  if ¬ st.s_cur.alert_police then [] else
  let b := st.s_cur.brightness
  let fc := (st.s_frame / 6) % 2
  let strobe := ((5/10 : ℚ) + (5/10 : ℚ) * sinq ((st.s_frame : ℚ) * (25/100 : ℚ))) * (25/100 : ℚ)
  let fcol := if fc ≠ 0 then DEBI_COLOR_RED else DEBI_COLOR_POLICE_BLUE
  draw_filled_circle (if fc ≠ 0 then FACE_CX - 60 else FACE_CX + 60)
    (FACE_CY - 30) (FACE_RADIUS - 20) fcol (truncQ (b * strobe * 255)) ++
  [Prim.arc FACE_CX FACE_CY (FACE_RADIUS - 4) 0 360 fcol (truncQ (b * (45/100 : ℚ) * 255)) 6]

/-- `draw_alert_text` (ui_face.c lines 242-275): the "ALERT!" glyph strokes. -/
def draw_alert_text (st : FaceState) : List Prim :=
  if ¬ st.s_cur.show_alert_text then [] else
  let b := st.s_cur.brightness
  let fc := (st.s_frame / 6) % 2
  let tc := if fc ≠ 0 then DEBI_COLOR_RED else DEBI_COLOR_POLICE_BLUE
  let opa := truncQ (b * 240)
  let y0 : ℤ := FACE_CY + 56
  let lh : ℤ := 28
  let lw : ℤ := 5
  let sp : ℤ := 22
  let xs : ℤ := FACE_CX - sp * 3 + 4
  let xA := xs
  let xL := xA + sp
  let xE := xL + sp
  let xR := xE + sp
  let xT := xR + sp
  let xB := xT + sp
  draw_line_seg xA (y0 + lh) (xA + 8) y0 tc opa lw ++
  draw_line_seg (xA + 8) y0 (xA + 16) (y0 + lh) tc opa lw ++
  draw_line_seg (xA + 4) (y0 + Int.tdiv lh 2) (xA + 12) (y0 + Int.tdiv lh 2) tc opa (lw - 1) ++
  draw_line_seg xL y0 xL (y0 + lh) tc opa lw ++
  draw_line_seg xL (y0 + lh) (xL + 14) (y0 + lh) tc opa lw ++
  draw_line_seg xE y0 xE (y0 + lh) tc opa lw ++
  draw_line_seg xE y0 (xE + 14) y0 tc opa lw ++
  draw_line_seg xE (y0 + Int.tdiv lh 2) (xE + 11) (y0 + Int.tdiv lh 2) tc opa (lw - 1) ++
  draw_line_seg xE (y0 + lh) (xE + 14) (y0 + lh) tc opa lw ++
  draw_line_seg xR y0 xR (y0 + lh) tc opa lw ++
  draw_qbezier (xR : ℚ) (y0 : ℚ) ((xR : ℚ) + 16) ((y0 : ℚ) + 2)
    ((xR : ℚ) + 4) ((y0 : ℚ) + (Int.tdiv lh 2 : ℚ)) tc opa lw ++
  draw_line_seg (xR + 6) (y0 + Int.tdiv lh 2) (xR + 14) (y0 + lh) tc opa lw ++
  draw_line_seg xT y0 (xT + 16) y0 tc opa lw ++
  draw_line_seg (xT + 8) y0 (xT + 8) (y0 + lh) tc opa lw ++
  draw_line_seg (xB + 4) y0 (xB + 4) (y0 + lh - 10) tc opa lw ++
  draw_filled_circle (xB + 4) (y0 + lh - 2) 3 tc opa ++
  draw_rounded_rect (xs - 10) (y0 - 6) (sp * 6 + 20) (lh + 12) 8 tc (truncQ (b * 30))

/-- `draw_glow_ring` (ui_face.c lines 277-294). -/
def draw_glow_ring (sinq : ℚ → ℚ) (st : FaceState) : List Prim :=
  let g0 := st.s_cur.glow_intensity * st.s_cur.brightness
  let g :=
    if st.s_cur.pulse then
      let spd := if st.s_cur.pulse_speed > 0 then st.s_cur.pulse_speed else 1
      g0 * ((3/10 : ℚ) + (7/10 : ℚ) * ((5/10 : ℚ) + (5/10 : ℚ) * sinq ((st.s_frame : ℚ) * spd * (5/100 : ℚ))))
    else
      g0 * ((6/10 : ℚ) + (4/10 : ℚ) * ((5/10 : ℚ) + (5/10 : ℚ) * sinq ((st.s_frame : ℚ) * (2/100 : ℚ))))
  if g < (1/100 : ℚ) then [] else
  let col := st.s_cur.primary_color
  ([3, 2, 1, 0] : List ℤ).flatMap fun i =>
    [Prim.arc FACE_CX FACE_CY (FACE_RADIUS - 4 - i * 7) 0 360 col
      (truncQ (g * (8/100 : ℚ) * ((4 - i : ℤ) : ℚ) * 255)) (8 + i * 5)]

/-- `draw_squared_eye` (ui_face.c lines 296-324). -/
def draw_squared_eye (st : FaceState) (side : ℤ) (bk : ℚ) : List Prim :=
  let b := st.s_cur.brightness
  let sz := st.s_cur.eye_size * 40
  let openness := st.s_cur.eye_openness * bk
  if openness < (2/100 : ℚ) then draw_closed_eyes st else
  let ps := st.s_cur.pupil_size
  let cx : ℤ := FACE_CX + side * 52 + truncQ (st.s_cur.gaze.x * 15)
  let cy : ℤ := FACE_CY - 18 + truncQ (st.s_cur.gaze.y * 10)
  let hw := truncQ (sz * (55/100 : ℚ))
  let hh := truncQ (sz * (45/100 : ℚ) * openness)
  let pc := st.s_cur.primary_color
  let opa := truncQ (b * 255)
  draw_rounded_rect (cx - hw) (cy - hh) (cx + hw) (cy + hh) 10 pc opa ++
  (let pw := truncQ ((hw : ℚ) * ps * (6/10 : ℚ))
   let ph := truncQ ((hh : ℚ) * ps * (7/10 : ℚ))
   let px := cx + truncQ (st.s_cur.gaze.x * 8)
   let py := cy + truncQ (st.s_cur.gaze.y * 5)
   draw_rounded_rect (px - pw) (py - ph) (px + pw) (py + ph) 6 DEBI_COLOR_BG opa) ++
  (let hs := truncQ (sz * (14/100 : ℚ))
   let hlx := cx - Int.tdiv hw 2 + 2
   let hly := cy - Int.tdiv hh 2 + 2
   draw_rounded_rect hlx hly (hlx + hs) (hly + hs) 2 LV_COLOR_WHITE (truncQ (b * 200)))

/-- `draw_crescent_eyes` (ui_face.c lines 326-340). -/
def draw_crescent_eyes (st : FaceState) : List Prim :=
  let b := st.s_cur.brightness
  let col := st.s_cur.primary_color
  let opa := truncQ (b * 255)
  ([-1, 1] : List ℤ).flatMap fun side =>
    let cx : ℤ := FACE_CX + side * 52 + truncQ (st.s_cur.gaze.x * 15)
    let cy : ℤ := FACE_CY - 18
    [Prim.arc cx (cy + 6) 18 200 340 col opa 8]

/-- `draw_worried_eyes` (ui_face.c lines 342-367). -/
def draw_worried_eyes (st : FaceState) (bk : ℚ) : List Prim :=
  let b := st.s_cur.brightness
  let openness := st.s_cur.eye_openness * bk
  if openness < (5/100 : ℚ) then draw_closed_eyes st else
  let col := st.s_cur.primary_color
  let opa := truncQ (b * 255)
  ([-1, 1] : List ℤ).flatMap fun side =>
    let cx : ℤ := FACE_CX + side * 52
    let cy : ℤ := FACE_CY - 18
    let hw : ℤ := 22
    let hh := truncQ (18 * openness)
    let tilt := side * 4
    draw_rounded_rect (cx - hw) (cy - hh + tilt) (cx + hw) (cy + hh + tilt) 8 col opa ++
    (let pw := truncQ ((hw : ℚ) * (55/100 : ℚ))
     let ph := truncQ ((hh : ℚ) * (65/100 : ℚ))
     draw_rounded_rect (cx - pw) (cy - ph + tilt) (cx + pw) (cy + ph + tilt) 5
       DEBI_COLOR_BG opa) ++
    draw_line_seg (cx - hw - 4) (cy - hh - 8 - side * 3)
      (cx + hw + 4) (cy - hh - 8 + side * 3) col opa 4

/-- `draw_love_bubbles` (ui_face.c lines 370-392). -/
def draw_love_bubbles (sinq : ℚ → ℚ) (st : FaceState) : List Prim :=
  if ¬ st.s_cur.love_bubbles then [] else
  let b := st.s_cur.brightness
  let col := st.s_cur.secondary_color
  let t := (st.s_frame : ℚ) * (33/1000 : ℚ)
  (List.range FACE_MAX_HEARTS).flatMap fun i =>
    let seed := (i : ℚ) * (1618/1000 : ℚ)
    let period := (25/10 : ℚ) + ((i % 4 : ℕ) : ℚ) * (5/10 : ℚ)
    let phase := fmodf (t / period + seed) 1
    if phase > (92/100 : ℚ) then [] else
    let bx := (FACE_CX : ℚ) + sinq (seed * (57/10 : ℚ)) * 130 + sinq (t * (14/10 : ℚ) + seed * 4) * 20
    let byy := ((FACE_CY : ℚ) + 145) +
      (((FACE_CY : ℚ) - 170) - ((FACE_CY : ℚ) + 145)) * phase
    let bs :=
      if phase < (1/10 : ℚ) then phase / (1/10 : ℚ)
      else if phase > (7/10 : ℚ) then (let pp := (phase - (7/10 : ℚ)) / (22/100 : ℚ); 1 - pp * pp)
      else 1
    let hsz := (14 + ((i % 5 : ℕ) : ℚ) * 6) * (if bs > 0 then bs else 0)
    if hsz < 3 then [] else
    let al1 := if phase < (8/100 : ℚ) then phase / (8/100 : ℚ) else 1
    let al := if phase > (75/100 : ℚ) then
        (let a := ((92/100 : ℚ) - phase) / (17/100 : ℚ); if a < 0 then 0 else a)
      else al1
    draw_heart_shape bx byy hsz col (truncQ (al * b * 140))

/-- `draw_mouth` (ui_face.c lines 394-442). -/
def draw_mouth (sinq : ℚ → ℚ) (st : FaceState) : List Prim :=
  let b := st.s_cur.brightness
  if b < (2/100 : ℚ) then [] else
  let gx := st.s_cur.gaze.x * (15/10 : ℚ)
  let sm := st.s_cur.mouth_smile
  let mw := st.s_cur.mouth_width
  let col := st.s_cur.primary_color
  let sec := st.s_cur.secondary_color
  let mY := (FACE_CY : ℚ) + (FACE_MOUTH_Y_OFF : ℚ)
  let mW := (FACE_MOUTH_BASE_W : ℚ) * mw
  let op := if st.s_cur.talking
    then (15/100 : ℚ) + (45/100 : ℚ) * |sinq ((st.s_frame : ℚ) * (14/100 : ℚ))|
    else st.s_cur.mouth_open
  match st.s_cur.eye_style with
  | EyeStyle.crescent =>
    let gW := mW * (14/10 : ℚ)
    let gH := 42 * mw
    draw_line_seg (truncQ ((FACE_CX : ℚ) - gW + gx)) (truncQ mY)
      (truncQ ((FACE_CX : ℚ) + gW + gx)) (truncQ mY) col (truncQ (b * 240)) 4 ++
    ((List.range 10).flatMap fun r =>
      let f := (r : ℚ) / 10
      let w := gW * 2 * (1 - f * f * (6/10 : ℚ))
      draw_rounded_rect (truncQ ((FACE_CX : ℚ) + gx - w / 2)) (truncQ (mY + gH * f))
        (truncQ w) (truncQ (gH / 10 + 2)) 4 col (truncQ (b * 235))) ++
    (let cs := (FACE_EYE_SPACING : ℚ) * st.s_cur.eye_size
     draw_filled_circle (truncQ ((FACE_CX : ℚ) - cs - 24)) (truncQ (mY - 10))
       20 sec (truncQ (b * 115)) ++
     draw_filled_circle (truncQ ((FACE_CX : ℚ) + cs + 24)) (truncQ (mY - 10))
       20 sec (truncQ (b * 115)))
  | EyeStyle.heart =>
    draw_qbezier ((FACE_CX : ℚ) - 28 + gx) (mY + 6) ((FACE_CX : ℚ) + gx) (mY - 14)
      ((FACE_CX : ℚ) + 28 + gx) (mY + 6) sec (truncQ (b * 200)) 5 ++
    (let cs := (FACE_EYE_SPACING : ℚ) * st.s_cur.eye_size
     draw_filled_circle (truncQ ((FACE_CX : ℚ) - cs - 30)) (truncQ (mY - 14))
       20 sec (truncQ (b * 90)) ++
     draw_filled_circle (truncQ ((FACE_CX : ℚ) + cs + 30)) (truncQ (mY - 14))
       20 sec (truncQ (b * 90)))
  | EyeStyle.worried =>
    draw_qbezier ((FACE_CX : ℚ) - mW * (7/10 : ℚ) + gx) (mY + 10) ((FACE_CX : ℚ) + gx)
      (mY + 28) ((FACE_CX : ℚ) + mW * (7/10 : ℚ) + gx) (mY + 10) col (truncQ (b * 200)) 5
  | EyeStyle.closed => []
  | EyeStyle.police => []
  | EyeStyle.squared =>
    if op > (5/100 : ℚ) then
      let mh := 12 + op * 32
      let mrw := 18 + op * 14
      draw_rounded_rect (truncQ ((FACE_CX : ℚ) + gx - mrw)) (truncQ (mY - mh / 2))
        (truncQ (mrw * 2)) (truncQ mh)
        (truncQ (if mh / (25/10 : ℚ) > mrw then mrw else mh / (25/10 : ℚ))) col (truncQ (b * 230))
    else
      draw_qbezier ((FACE_CX : ℚ) - mW * (6/10 : ℚ) + gx) mY ((FACE_CX : ℚ) + gx)
        (mY + sm * (-22)) ((FACE_CX : ℚ) + mW * (6/10 : ℚ) + gx) mY col (truncQ (b * 210)) 5

/-- `face_draw_cb` (ui_face.c lines 444-466): the full frame render.
It reads the animation state and emits primitives; the returned state is
the module state as the callback leaves it. -/
def face_draw_cb (sinq : ℚ → ℚ) (st : FaceState) : List Prim × FaceState :=
  let bg := [Prim.rect 0 0 (DEBI_DISPLAY_WIDTH - 1) (DEBI_DISPLAY_HEIGHT - 1)
    LV_RADIUS_CIRCLE DEBI_COLOR_BG (truncQ (st.s_cur.brightness * 255))]
  let bk := blink_mul st
  let eyes :=
    match st.s_cur.eye_style with
    | EyeStyle.squared => draw_squared_eye st (-1) bk ++ draw_squared_eye st 1 bk
    | EyeStyle.heart => draw_heart_eyes sinq st
    | EyeStyle.crescent => draw_crescent_eyes st
    | EyeStyle.closed => draw_closed_eyes st
    | EyeStyle.worried => draw_worried_eyes st bk
    | EyeStyle.police => draw_police_eyes st
  (bg ++ draw_police_flash_bg sinq st ++ draw_glow_ring sinq st ++ eyes ++
   draw_mouth sinq st ++ draw_love_bubbles sinq st ++ draw_alert_text st, st)

/- ── Specification-side definitions used by the theorems ── -/

/-- The fields `face_animate_step` interpolates (ui_face.c lines 60-69):
eye openness, eye size, gaze x/y, mouth smile/open/width, happiness,
brightness, glow intensity.  Note the source does NOT include
`pupil_size`. -/
inductive ContField
  | openness
  | size
  | gazeX
  | gazeY
  | smile
  | openM
  | width
  | happy
  | bright
  | glow
deriving DecidableEq, Fintype, Repr

/-- Project a snapshot at an interpolated field. -/
def ContField.get : ContField → FaceParams → ℚ
  | ContField.openness, p => p.eye_openness
  | ContField.size, p => p.eye_size
  | ContField.gazeX, p => p.gaze.x
  | ContField.gazeY, p => p.gaze.y
  | ContField.smile, p => p.mouth_smile
  | ContField.openM, p => p.mouth_open
  | ContField.width, p => p.mouth_width
  | ContField.happy, p => p.happiness
  | ContField.bright, p => p.brightness
  | ContField.glow, p => p.glow_intensity

/-- All interpolated fields of `c` agree with `p`. -/
def contEqI (c p : FaceParams) : Prop :=
  ∀ f : ContField, f.get c = f.get p

instance (c p : FaceParams) : Decidable (contEqI c p) := by
  unfold contEqI; infer_instance

/-- The discrete/flag fields of `c` agree with `p`: exactly the fields
`face_animate_step` copies unconditionally (ui_face.c lines 71-81). -/
def discEq (c p : FaceParams) : Prop :=
  c.eye_style = p.eye_style ∧ c.primary_color = p.primary_color ∧
  c.secondary_color = p.secondary_color ∧ c.pulse = p.pulse ∧
  c.pulse_speed = p.pulse_speed ∧ c.flash = p.flash ∧ c.talking = p.talking ∧
  c.sparkle = p.sparkle ∧ c.love_bubbles = p.love_bubbles ∧
  c.alert_police = p.alert_police ∧ c.show_alert_text = p.show_alert_text

instance (c p : FaceParams) : Decidable (discEq c p) := by
  unfold discEq; infer_instance

/-- The declared gaze bounds (those enforced by `ui_face_look`):
x ∈ [-15, 15], y ∈ [-10, 10]. -/
def gaze_in_bounds (g : FaceGaze) : Prop :=
  -15 ≤ g.x ∧ g.x ≤ 15 ∧ -10 ≤ g.y ∧ g.y ≤ 10

instance (g : FaceGaze) : Decidable (gaze_in_bounds g) := by
  unfold gaze_in_bounds; infer_instance

/-- The C2 end-to-end scenario: snap to the boot preset, set the idle
preset with a 400 ms transition, then run `n` ticks (33 ms tick period,
no blink or wander timer fires within the first 13 ticks). -/
def C2_scenario (n : ℕ) : FaceState :=
  (ticks n (ui_face_set_params
      (ui_face_set_params ui_face_init_state (some (PRESETS 12)) 0)
      (some (PRESETS 0)) 400) []).1

/- ── Helper lemmas about the step components ── -/

lemma transition_tgt (st : FaceState) : (face_step_transition st).s_tgt = st.s_tgt := by
  unfold face_step_transition; split <;> rfl

lemma transition_speed (st : FaceState) :
    (face_step_transition st).s_trans_speed = st.s_trans_speed := by
  unfold face_step_transition; split <;> rfl

lemma transition_blink_timer (st : FaceState) :
    (face_step_transition st).s_blink_timer = st.s_blink_timer := by
  unfold face_step_transition; split <;> rfl

lemma transition_blink_phase (st : FaceState) :
    (face_step_transition st).s_blink_phase = st.s_blink_phase := by
  unfold face_step_transition; split <;> rfl

lemma transition_wander_timer (st : FaceState) :
    (face_step_transition st).s_wander_timer = st.s_wander_timer := by
  unfold face_step_transition; split <;> rfl

lemma transition_progress (st : FaceState) :
    (face_step_transition st).s_trans_progress =
      if st.s_trans_progress < 1 then
        (if st.s_trans_progress + st.s_trans_speed > 1 then 1
         else st.s_trans_progress + st.s_trans_speed)
      else st.s_trans_progress := by
  unfold face_step_transition
  by_cases h : st.s_trans_progress < 1 <;> simp [h]

lemma transition_cur_get (f : ContField) (st : FaceState) :
    f.get (face_step_transition st).s_cur =
      if st.s_trans_progress < 1 then
        lerpf (f.get st.s_cur) (f.get st.s_tgt)
          (ease_in_out (if st.s_trans_progress + st.s_trans_speed > 1 then 1
                        else st.s_trans_progress + st.s_trans_speed))
      else f.get st.s_cur := by
  unfold face_step_transition
  by_cases h : st.s_trans_progress < 1 <;> simp [h] <;> cases f <;> rfl

lemma transition_cur_pupil (st : FaceState) :
    (face_step_transition st).s_cur.pupil_size = st.s_cur.pupil_size := by
  unfold face_step_transition; split <;> rfl

lemma discrete_tgt (st : FaceState) : (face_step_discrete st).s_tgt = st.s_tgt := rfl

lemma discrete_progress (st : FaceState) :
    (face_step_discrete st).s_trans_progress = st.s_trans_progress := rfl

lemma discrete_speed (st : FaceState) :
    (face_step_discrete st).s_trans_speed = st.s_trans_speed := rfl

lemma discrete_blink_timer (st : FaceState) :
    (face_step_discrete st).s_blink_timer = st.s_blink_timer := rfl

lemma discrete_blink_phase (st : FaceState) :
    (face_step_discrete st).s_blink_phase = st.s_blink_phase := rfl

lemma discrete_wander_timer (st : FaceState) :
    (face_step_discrete st).s_wander_timer = st.s_wander_timer := rfl

lemma discrete_cur_get (f : ContField) (st : FaceState) :
    f.get (face_step_discrete st).s_cur = f.get st.s_cur := by
  cases f <;> rfl

lemma discrete_cur_pupil (st : FaceState) :
    (face_step_discrete st).s_cur.pupil_size = st.s_cur.pupil_size := rfl

lemma blink_cur (st : FaceState) (rnd : List ℕ) :
    ((face_step_blink st rnd).1).s_cur = st.s_cur := by
  unfold face_step_blink; dsimp only; split_ifs <;> rfl

lemma blink_tgt (st : FaceState) (rnd : List ℕ) :
    ((face_step_blink st rnd).1).s_tgt = st.s_tgt := by
  unfold face_step_blink; dsimp only; split_ifs <;> rfl

lemma blink_progress (st : FaceState) (rnd : List ℕ) :
    ((face_step_blink st rnd).1).s_trans_progress = st.s_trans_progress := by
  unfold face_step_blink; dsimp only; split_ifs <;> rfl

lemma blink_speed (st : FaceState) (rnd : List ℕ) :
    ((face_step_blink st rnd).1).s_trans_speed = st.s_trans_speed := by
  unfold face_step_blink; dsimp only; split_ifs <;> rfl

lemma blink_wander_timer (st : FaceState) (rnd : List ℕ) :
    ((face_step_blink st rnd).1).s_wander_timer = st.s_wander_timer := by
  unfold face_step_blink; dsimp only; split_ifs <;> rfl

lemma blink_phase_dec (st : FaceState) (rnd : List ℕ) (h : 0 < st.s_blink_phase) :
    ((face_step_blink st rnd).1).s_blink_phase = st.s_blink_phase - 1 := by
  unfold face_step_blink
  dsimp only
  split_ifs with h1 h2 h3 <;> first
    | rfl
    | omega

lemma wander_cur (st : FaceState) (rnd : List ℕ) :
    ((face_step_wander st rnd).1).s_cur = st.s_cur := by
  unfold face_step_wander; dsimp only; split <;> rfl

lemma wander_blink_phase (st : FaceState) (rnd : List ℕ) :
    ((face_step_wander st rnd).1).s_blink_phase = st.s_blink_phase := by
  unfold face_step_wander; dsimp only; split <;> rfl

lemma wander_blink_timer (st : FaceState) (rnd : List ℕ) :
    ((face_step_wander st rnd).1).s_blink_timer = st.s_blink_timer := by
  unfold face_step_wander; dsimp only; split <;> rfl

lemma wander_progress (st : FaceState) (rnd : List ℕ) :
    ((face_step_wander st rnd).1).s_trans_progress = st.s_trans_progress := by
  unfold face_step_wander; dsimp only; split <;> rfl

lemma wander_speed (st : FaceState) (rnd : List ℕ) :
    ((face_step_wander st rnd).1).s_trans_speed = st.s_trans_speed := by
  unfold face_step_wander; dsimp only; split <;> rfl

lemma wander_nofire (st : FaceState) (rnd : List ℕ) (h : 1 < st.s_wander_timer) :
    (face_step_wander st rnd).1 = { st with s_wander_timer := st.s_wander_timer - 1 } := by
  unfold face_step_wander
  dsimp only
  rw [if_neg (by omega)]

lemma reseed_x_bounds (n : ℕ) :
    -15 ≤ (((n % 100 : ℕ) : ℚ) / 100 - 1/2) * 6 ∧
    (((n % 100 : ℕ) : ℚ) / 100 - 1/2) * 6 ≤ 15 := by
  have h : (n % 100) < 100 := Nat.mod_lt _ (by norm_num)
  have h0 : (0 : ℚ) ≤ ((n % 100 : ℕ) : ℚ) := Nat.cast_nonneg _
  have h9 : ((n % 100 : ℕ) : ℚ) ≤ 99 := by exact_mod_cast Nat.le_of_lt_succ h
  constructor <;> nlinarith

lemma reseed_y_bounds (n : ℕ) :
    -10 ≤ (((n % 100 : ℕ) : ℚ) / 100 - 1/2) * 3 ∧
    (((n % 100 : ℕ) : ℚ) / 100 - 1/2) * 3 ≤ 10 := by
  have h : (n % 100) < 100 := Nat.mod_lt _ (by norm_num)
  have h0 : (0 : ℚ) ≤ ((n % 100 : ℕ) : ℚ) := Nat.cast_nonneg _
  have h9 : ((n % 100 : ℕ) : ℚ) ≤ 99 := by exact_mod_cast Nat.le_of_lt_succ h
  constructor <;> nlinarith

lemma wander_fire_gaze (st : FaceState) (rnd : List ℕ) (h : st.s_wander_timer ≤ 1) :
    gaze_in_bounds ((face_step_wander st rnd).1).s_tgt.gaze := by
  unfold face_step_wander
  dsimp only
  rw [if_pos (by omega)]
  exact ⟨(reseed_x_bounds _).1, (reseed_x_bounds _).2,
         (reseed_y_bounds _).1, (reseed_y_bounds _).2⟩

lemma wander_gaze_cases (st : FaceState) (rnd : List ℕ) :
    gaze_in_bounds ((face_step_wander st rnd).1).s_tgt.gaze ∨
    ((face_step_wander st rnd).1).s_tgt.gaze = st.s_tgt.gaze := by
  by_cases h : st.s_wander_timer ≤ 1
  · exact Or.inl (wander_fire_gaze st rnd h)
  · right
    rw [wander_nofire st rnd (by omega)]

lemma ticks_succ_right (n : ℕ) (st : FaceState) (rnd : List ℕ) :
    ticks (n + 1) st rnd =
      face_tick_cb (ticks n st rnd).1 (ticks n st rnd).2 := by
  induction n generalizing st rnd with
  | zero => rfl
  | succ m ih =>
    show ticks (m + 1) (face_tick_cb st rnd).1 (face_tick_cb st rnd).2 = _
    rw [ih]
    rfl

lemma set_params_tgt (st : FaceState) (p : FaceParams) (ms : ℕ) :
    (ui_face_set_params st (some p) ms).s_tgt = p := by
  unfold ui_face_set_params
  dsimp only
  split <;> rfl

lemma set_params_cur_pos (st : FaceState) (p : FaceParams) (ms : ℕ) (h : ms ≠ 0) :
    (ui_face_set_params st (some p) ms).s_cur = st.s_cur := by
  unfold ui_face_set_params
  dsimp only
  rw [if_neg h]

lemma set_params_wander (st : FaceState) (p : FaceParams) (ms : ℕ) :
    (ui_face_set_params st (some p) ms).s_wander_timer = st.s_wander_timer := by
  unfold ui_face_set_params
  dsimp only
  split <;> rfl

lemma tick_cur_discrete (st : FaceState) (rnd : List ℕ) :
    ((face_tick_cb st rnd).1).s_cur =
      (face_step_discrete (face_step_transition
        { st with s_frame := st.s_frame + 1 })).s_cur := by
  show ((face_step_wander _ _).1).s_cur = _
  rw [wander_cur, blink_cur]

lemma discrete_sets (st : FaceState) : discEq (face_step_discrete st).s_cur st.s_tgt :=
  ⟨rfl, rfl, rfl, rfl, rfl, rfl, rfl, rfl, rfl, rfl, rfl⟩

lemma tick_cur_get (f : ContField) (st : FaceState) (rnd : List ℕ) :
    f.get ((face_tick_cb st rnd).1).s_cur =
      f.get (face_step_transition { st with s_frame := st.s_frame + 1 }).s_cur := by
  show f.get ((face_step_wander _ _).1).s_cur = _
  rw [wander_cur, blink_cur, discrete_cur_get]

lemma tick_cur_get_formula (f : ContField) (st : FaceState) (rnd : List ℕ) :
    f.get ((face_tick_cb st rnd).1).s_cur =
      if st.s_trans_progress < 1 then
        lerpf (f.get st.s_cur) (f.get st.s_tgt)
          (ease_in_out (if st.s_trans_progress + st.s_trans_speed > 1 then 1
                        else st.s_trans_progress + st.s_trans_speed))
      else f.get st.s_cur := by
  rw [tick_cur_get, transition_cur_get]

lemma tick_speed (st : FaceState) (rnd : List ℕ) :
    ((face_tick_cb st rnd).1).s_trans_speed = st.s_trans_speed := by
  show ((face_step_wander _ _).1).s_trans_speed = _
  rw [wander_speed, blink_speed, discrete_speed, transition_speed]

lemma tick_progress (st : FaceState) (rnd : List ℕ) :
    ((face_tick_cb st rnd).1).s_trans_progress =
      if st.s_trans_progress < 1 then
        (if st.s_trans_progress + st.s_trans_speed > 1 then 1
         else st.s_trans_progress + st.s_trans_speed)
      else st.s_trans_progress := by
  show ((face_step_wander _ _).1).s_trans_progress = _
  rw [wander_progress, blink_progress, discrete_progress, transition_progress]

lemma tick_tgt (st : FaceState) (rnd : List ℕ) (hw : 1 < st.s_wander_timer) :
    ((face_tick_cb st rnd).1).s_tgt = st.s_tgt := by
  show ((face_step_wander _ _).1).s_tgt = _
  rw [wander_nofire _ _ (by
    rw [blink_wander_timer, discrete_wander_timer, transition_wander_timer]; exact hw)]
  rw [blink_tgt, discrete_tgt, transition_tgt]

lemma tick_wander_timer (st : FaceState) (rnd : List ℕ) (hw : 1 < st.s_wander_timer) :
    ((face_tick_cb st rnd).1).s_wander_timer = st.s_wander_timer - 1 := by
  show ((face_step_wander _ _).1).s_wander_timer = _
  rw [wander_nofire _ _ (by
    rw [blink_wander_timer, discrete_wander_timer, transition_wander_timer]; exact hw)]
  rw [blink_wander_timer, discrete_wander_timer, transition_wander_timer]

lemma tick_gaze_bounds (st : FaceState) (rnd : List ℕ)
    (h : gaze_in_bounds st.s_tgt.gaze) :
    gaze_in_bounds ((face_tick_cb st rnd).1).s_tgt.gaze := by
  show gaze_in_bounds ((face_step_wander _ _).1).s_tgt.gaze
  rcases wander_gaze_cases
      (face_step_blink (face_step_discrete (face_step_transition
        { st with s_frame := st.s_frame + 1 })) rnd).1
      (face_step_blink (face_step_discrete (face_step_transition
        { st with s_frame := st.s_frame + 1 })) rnd).2 with h1 | h1
  · exact h1
  · rw [h1, blink_tgt, discrete_tgt, transition_tgt]
    exact h

lemma lerp_one (a b : ℚ) : lerpf a b 1 = b := by
  unfold lerpf; ring

lemma ease_one : ease_in_out 1 = 1 := by
  norm_num [ease_in_out]

lemma min_step (sp : ℚ) (hsp : 0 ≤ sp) (k : ℚ) :
    (if min 1 (k * sp) < 1 then
       (if min 1 (k * sp) + sp > 1 then 1 else min 1 (k * sp) + sp)
     else min 1 (k * sp)) = min 1 ((k + 1) * sp) := by
  rcases le_or_lt 1 (k * sp) with h | h
  · rw [min_eq_left h, if_neg (lt_irrefl 1), min_eq_left (by nlinarith)]
  · rw [min_eq_right h.le, if_pos h]
    by_cases h2 : k * sp + sp > 1
    · rw [if_pos h2, min_eq_left (by nlinarith)]
    · push_neg at h2
      rw [if_neg (by linarith : ¬ (k * sp + sp > 1)), min_eq_right (by nlinarith)]
      ring

lemma trans_inv_step (p : FaceParams) (sp : ℚ) (hsp : 0 < sp) (k : ℚ)
    (st : FaceState) (rnd : List ℕ)
    (htgt : st.s_tgt = p) (hspd : st.s_trans_speed = sp)
    (hpr : st.s_trans_progress = min 1 (k * sp))
    (hcur : 1 ≤ k * sp → contEqI st.s_cur p)
    (hw : 1 < st.s_wander_timer) :
    ((face_tick_cb st rnd).1).s_tgt = p ∧
    ((face_tick_cb st rnd).1).s_trans_speed = sp ∧
    ((face_tick_cb st rnd).1).s_trans_progress = min 1 ((k + 1) * sp) ∧
    (1 ≤ (k + 1) * sp → contEqI ((face_tick_cb st rnd).1).s_cur p) := by
  refine ⟨?_, ?_, ?_, ?_⟩
  · rw [tick_tgt st rnd hw]; exact htgt
  · rw [tick_speed]; exact hspd
  · rw [tick_progress, hpr, hspd, min_step sp hsp.le k]
  · intro h1 f
    rw [tick_cur_get_formula f st rnd, hpr, hspd, htgt]
    rcases le_or_lt 1 (k * sp) with hk | hk
    · rw [min_eq_left hk, if_neg (lt_irrefl 1)]
      exact hcur hk f
    · rw [min_eq_right hk.le, if_pos hk]
      have harg : (if k * sp + sp > 1 then 1 else k * sp + sp) = 1 := by
        by_cases h2 : k * sp + sp > 1
        · rw [if_pos h2]
        · rw [if_neg h2]; push_neg at h2; nlinarith
      rw [harg, ease_one, lerp_one]

lemma ticks_inv (p : FaceParams) (sp : ℚ) (hsp : 0 < sp) :
    ∀ (n : ℕ) (k : ℚ) (st : FaceState) (rnd : List ℕ),
      st.s_tgt = p → st.s_trans_speed = sp →
      st.s_trans_progress = min 1 (k * sp) →
      (1 ≤ k * sp → contEqI st.s_cur p) →
      (n : ℤ) < st.s_wander_timer →
      ((ticks n st rnd).1.s_tgt = p ∧
       (ticks n st rnd).1.s_trans_speed = sp ∧
       (ticks n st rnd).1.s_trans_progress = min 1 ((k + (n : ℚ)) * sp) ∧
       (1 ≤ (k + (n : ℚ)) * sp → contEqI (ticks n st rnd).1.s_cur p)) := by
  intro n
  induction n with
  | zero =>
    intro k st rnd h1 h2 h3 h4 _
    push_cast
    rw [add_zero]
    exact ⟨h1, h2, h3, h4⟩
  | succ m ih =>
    intro k st rnd h1 h2 h3 h4 h5
    have hw1 : 1 < st.s_wander_timer := by
      push_cast at h5; omega
    obtain ⟨g1, g2, g3, g4⟩ := trans_inv_step p sp hsp k st rnd h1 h2 h3 h4 hw1
    have hw2 : (m : ℤ) < ((face_tick_cb st rnd).1).s_wander_timer := by
      rw [tick_wander_timer st rnd hw1]
      push_cast at h5 ⊢
      omega
    have hrec := ih (k + 1) (face_tick_cb st rnd).1 (face_tick_cb st rnd).2 g1 g2 g3 g4 hw2
    rw [show (k + ((m + 1 : ℕ) : ℚ)) = (k + 1 + (m : ℚ)) by push_cast; ring]
    exact hrec

lemma ease_bounds (t : ℚ) (h0 : 0 ≤ t) (h1 : t ≤ 1) :
    0 ≤ ease_in_out t ∧ ease_in_out t ≤ 1 := by
  unfold ease_in_out
  split_ifs with h <;> constructor <;> nlinarith

lemma lerp_between (a b t : ℚ) (h0 : 0 ≤ t) (h1 : t ≤ 1) :
    (a ≤ b → a ≤ lerpf a b t ∧ lerpf a b t ≤ b) ∧
    (b ≤ a → lerpf a b t ≤ a ∧ b ≤ lerpf a b t) := by
  unfold lerpf
  constructor <;> intro h <;> constructor <;> nlinarith

lemma tick_progress_nonneg (st : FaceState) (rnd : List ℕ)
    (h0 : 0 ≤ st.s_trans_progress) (hs : 0 ≤ st.s_trans_speed) :
    0 ≤ ((face_tick_cb st rnd).1).s_trans_progress := by
  rw [tick_progress]
  split_ifs <;> linarith

lemma tick_between (st : FaceState) (rnd : List ℕ) (f : ContField)
    (h0 : 0 ≤ st.s_trans_progress) (hs : 0 ≤ st.s_trans_speed) :
    (f.get st.s_cur ≤ f.get st.s_tgt →
      f.get st.s_cur ≤ f.get ((face_tick_cb st rnd).1).s_cur ∧
      f.get ((face_tick_cb st rnd).1).s_cur ≤ f.get st.s_tgt) ∧
    (f.get st.s_tgt ≤ f.get st.s_cur →
      f.get ((face_tick_cb st rnd).1).s_cur ≤ f.get st.s_cur ∧
      f.get st.s_tgt ≤ f.get ((face_tick_cb st rnd).1).s_cur) := by
  rw [tick_cur_get_formula f st rnd]
  by_cases hp : st.s_trans_progress < 1
  · rw [if_pos hp]
    have harg0 : 0 ≤ (if st.s_trans_progress + st.s_trans_speed > 1 then 1
        else st.s_trans_progress + st.s_trans_speed) := by
      split_ifs <;> linarith
    have harg1 : (if st.s_trans_progress + st.s_trans_speed > 1 then 1
        else st.s_trans_progress + st.s_trans_speed) ≤ 1 := by
      split_ifs with h2
      · exact le_refl 1
      · push_neg at h2; exact h2
    obtain ⟨he0, he1⟩ := ease_bounds _ harg0 harg1
    exact lerp_between _ _ _ he0 he1
  · rw [if_neg hp]
    exact ⟨fun h => ⟨le_refl _, h⟩, fun h => ⟨le_refl _, h⟩⟩

lemma ticks_frame_inv (st : FaceState) (rnd : List ℕ)
    (h0 : 0 ≤ st.s_trans_progress) (hs : 0 ≤ st.s_trans_speed) :
    ∀ k : ℕ, (k : ℤ) < st.s_wander_timer →
      ((ticks k st rnd).1.s_tgt = st.s_tgt ∧
       0 ≤ (ticks k st rnd).1.s_trans_progress ∧
       (ticks k st rnd).1.s_trans_speed = st.s_trans_speed ∧
       (ticks k st rnd).1.s_wander_timer = st.s_wander_timer - k) := by
  have main : ∀ (k : ℕ) (st : FaceState) (rnd : List ℕ),
      0 ≤ st.s_trans_progress → 0 ≤ st.s_trans_speed →
      (k : ℤ) < st.s_wander_timer →
      ((ticks k st rnd).1.s_tgt = st.s_tgt ∧
       0 ≤ (ticks k st rnd).1.s_trans_progress ∧
       (ticks k st rnd).1.s_trans_speed = st.s_trans_speed ∧
       (ticks k st rnd).1.s_wander_timer = st.s_wander_timer - k) := by
    intro k
    induction k with
    | zero =>
      intro st rnd h0 hs _
      refine ⟨rfl, h0, rfl, ?_⟩
      show st.s_wander_timer = st.s_wander_timer - ((0 : ℕ) : ℤ)
      simp
    | succ m ih =>
      intro st rnd h0 hs hk
      have hw1 : 1 < st.s_wander_timer := by push_cast at hk; omega
      have hm : (m : ℤ) < ((face_tick_cb st rnd).1).s_wander_timer := by
        rw [tick_wander_timer st rnd hw1]
        push_cast at hk ⊢
        omega
      obtain ⟨a1, a2, a3, a4⟩ := ih (face_tick_cb st rnd).1 (face_tick_cb st rnd).2
        (tick_progress_nonneg st rnd h0 hs) (by rw [tick_speed]; exact hs) hm
      refine ⟨?_, ?_, ?_, ?_⟩
      · show (ticks m (face_tick_cb st rnd).1 (face_tick_cb st rnd).2).1.s_tgt = st.s_tgt
        rw [a1, tick_tgt st rnd hw1]
      · show 0 ≤ (ticks m (face_tick_cb st rnd).1 (face_tick_cb st rnd).2).1.s_trans_progress
        exact a2
      · show (ticks m (face_tick_cb st rnd).1 (face_tick_cb st rnd).2).1.s_trans_speed
          = st.s_trans_speed
        rw [a3, tick_speed]
      · show (ticks m (face_tick_cb st rnd).1 (face_tick_cb st rnd).2).1.s_wander_timer
          = st.s_wander_timer - ((m + 1 : ℕ) : ℤ)
        rw [a4, tick_wander_timer st rnd hw1]
        push_cast
        ring
  exact fun k hk => main k st rnd h0 hs hk

/- ── Claim theorems ── -/

/-- C1 counterexample: in a state where a blink is in progress (blink-phase
counter 5 > 0), calling `ui_face_blink` is not a no-op — it restarts the
phase counter to the full cycle length 12. -/
theorem C1_counterexample :
    0 < ({ ui_face_init_state with s_blink_phase := 5 } : FaceState).s_blink_phase ∧
    (ui_face_blink { ui_face_init_state with s_blink_phase := 5 }).s_blink_phase ≠
      ({ ui_face_init_state with s_blink_phase := 5 } : FaceState).s_blink_phase ∧
    (ui_face_blink { ui_face_init_state with s_blink_phase := 5 }).s_blink_phase = 12 := by
  refine ⟨by decide, by decide, by decide⟩

/-- C1 (amended): `ui_face_blink` unconditionally restarts the blink — it
sets the blink-phase counter to the full cycle length 12 and changes
nothing else, even while a blink is in progress.  Only the timer-driven
automatic blink start inside `face_animate_step` is a no-op while a blink
is in progress: there the phase counter only decrements until the ongoing
blink completes. -/
theorem C1_amended_thm (st : FaceState) (rnd : List ℕ) :
    (ui_face_blink st).s_blink_phase = 12 ∧
    (ui_face_blink st).s_cur = st.s_cur ∧
    (ui_face_blink st).s_tgt = st.s_tgt ∧
    (ui_face_blink st).s_trans_progress = st.s_trans_progress ∧
    (ui_face_blink st).s_trans_speed = st.s_trans_speed ∧
    (ui_face_blink st).s_blink_timer = st.s_blink_timer ∧
    (ui_face_blink st).s_wander_timer = st.s_wander_timer ∧
    (ui_face_blink st).s_frame = st.s_frame ∧
    (0 < st.s_blink_phase →
      ((face_animate_step st rnd).1).s_blink_phase = st.s_blink_phase - 1) := by
  refine ⟨rfl, rfl, rfl, rfl, rfl, rfl, rfl, rfl, ?_⟩
  intro h
  have h2 : 0 < (face_step_discrete (face_step_transition st)).s_blink_phase := by
    rw [discrete_blink_phase, transition_blink_phase]; exact h
  show ((face_step_wander _ _).1).s_blink_phase = _
  rw [wander_blink_phase, blink_phase_dec _ _ h2, discrete_blink_phase,
    transition_blink_phase]

/-- C1 witness: at the concrete in-progress state with phase 3, one
animation step leaves the phase at 3 - 1 = 2 (no restart by the automatic
path). -/
theorem C1_witness :
    (0 : ℤ) < ({ ui_face_init_state with s_blink_phase := 3 } : FaceState).s_blink_phase ∧
    ((face_animate_step { ui_face_init_state with s_blink_phase := 3 } []).1).s_blink_phase =
      ({ ui_face_init_state with s_blink_phase := 3 } : FaceState).s_blink_phase - 1 :=
  ⟨by decide,
   (C1_amended_thm { ui_face_init_state with s_blink_phase := 3 }
     []).2.2.2.2.2.2.2.2 (by decide)⟩

set_option maxRecDepth 16000 in
/-- C2 counterexample: from the boot preset, setting the idle preset with a
400 ms transition and ticking 12 times at the 33 ms tick period does NOT
make the current snapshot equal idle's target: progress is only
12 · (33/400) = 99/100 and eye openness has not yet reached 0.75 (and
`pupil_size` is never advanced at all). -/
theorem C2_counterexample : (C2_scenario 12).s_cur ≠ PRESETS 0 := by
  with_unfolding_all decide

set_option maxRecDepth 16000 in
/-- C2 (amended): from the boot preset, setting the idle preset with a
400 ms transition, after 13 = ⌈400/33⌉ ticks at the 33 ms tick period the
current snapshot equals idle's target in every field except `pupil_size`
(which the engine never interpolates; it keeps boot's value 0), and
transition progress is exactly 1; at the intermediate tick 6, eye openness
is strictly between 0 and 0.75. -/
theorem C2_amended_thm :
    (C2_scenario 13).s_cur.eye_openness = (PRESETS 0).eye_openness ∧
    (C2_scenario 13).s_cur.eye_size = (PRESETS 0).eye_size ∧
    (C2_scenario 13).s_cur.gaze = (PRESETS 0).gaze ∧
    (C2_scenario 13).s_cur.mouth_smile = (PRESETS 0).mouth_smile ∧
    (C2_scenario 13).s_cur.mouth_open = (PRESETS 0).mouth_open ∧
    (C2_scenario 13).s_cur.mouth_width = (PRESETS 0).mouth_width ∧
    (C2_scenario 13).s_cur.happiness = (PRESETS 0).happiness ∧
    (C2_scenario 13).s_cur.brightness = (PRESETS 0).brightness ∧
    (C2_scenario 13).s_cur.glow_intensity = (PRESETS 0).glow_intensity ∧
    (C2_scenario 13).s_cur.eye_style = (PRESETS 0).eye_style ∧
    (C2_scenario 13).s_cur.primary_color = (PRESETS 0).primary_color ∧
    (C2_scenario 13).s_cur.secondary_color = (PRESETS 0).secondary_color ∧
    (C2_scenario 13).s_cur.pulse = (PRESETS 0).pulse ∧
    (C2_scenario 13).s_cur.pulse_speed = (PRESETS 0).pulse_speed ∧
    (C2_scenario 13).s_cur.flash = (PRESETS 0).flash ∧
    (C2_scenario 13).s_cur.talking = (PRESETS 0).talking ∧
    (C2_scenario 13).s_cur.sparkle = (PRESETS 0).sparkle ∧
    (C2_scenario 13).s_cur.love_bubbles = (PRESETS 0).love_bubbles ∧
    (C2_scenario 13).s_cur.alert_police = (PRESETS 0).alert_police ∧
    (C2_scenario 13).s_cur.show_alert_text = (PRESETS 0).show_alert_text ∧
    (C2_scenario 13).s_cur.pupil_size = 0 ∧
    (C2_scenario 13).s_trans_progress = 1 ∧
    0 < (C2_scenario 6).s_cur.eye_openness ∧
    (C2_scenario 6).s_cur.eye_openness < (75/100 : ℚ) := by
  refine ⟨by with_unfolding_all decide, by with_unfolding_all decide,
    by with_unfolding_all decide, by with_unfolding_all decide,
    by with_unfolding_all decide, by with_unfolding_all decide,
    by with_unfolding_all decide, by with_unfolding_all decide,
    by with_unfolding_all decide, by with_unfolding_all decide,
    by with_unfolding_all decide, by with_unfolding_all decide,
    by with_unfolding_all decide, by with_unfolding_all decide,
    by with_unfolding_all decide, by with_unfolding_all decide,
    by with_unfolding_all decide, by with_unfolding_all decide,
    by with_unfolding_all decide, by with_unfolding_all decide,
    by with_unfolding_all decide, by with_unfolding_all decide,
    by with_unfolding_all decide, by with_unfolding_all decide⟩

/-- C4: `ui_face_set_params` with `duration_ms = 0` snaps instantly — the
current snapshot (as returned by `ui_face_get_params`) equals the target,
the stored target equals it too, and transition progress is 1, with no tick
needed. -/
theorem C4_thm (st : FaceState) (p : FaceParams) :
    ui_face_get_params (ui_face_set_params st (some p) 0) = p ∧
    (ui_face_set_params st (some p) 0).s_tgt = p ∧
    (ui_face_set_params st (some p) 0).s_trans_progress = 1 :=
  ⟨rfl, rfl, rfl⟩

/-- C6: for every state identifier ≥ FACE_STATE_COUNT, `ui_face_set_state`
is a total no-op: the stored face state, the target snapshot and the
transition state are all unchanged (the whole context is returned as is),
and no fault is raised. -/
theorem C6_thm (ctx : StatesCtx) (state : ℕ) (h : FACE_STATE_COUNT ≤ state) :
    ui_face_set_state ctx state = ctx := by
  unfold ui_face_set_state
  rw [if_pos h]

/-- C6 witness: state identifier 15 = FACE_STATE_COUNT is rejected. -/
theorem C6_witness :
    FACE_STATE_COUNT ≤ 15 ∧
    ui_face_set_state { s_state := 0, face := ui_face_init_state } 15 =
      { s_state := 0, face := ui_face_init_state } :=
  ⟨by decide, C6_thm { s_state := 0, face := ui_face_init_state } 15 (by decide)⟩

/-- C10: calling `ui_face_set_state` with the state that is already stored
is a no-op: the whole context (stored state, target snapshot, transition
progress and speed) is returned unchanged, so an in-flight transition is
not restarted. -/
theorem C10_thm (ctx : StatesCtx) (state : ℕ) (h : state = ctx.s_state) :
    ui_face_set_state ctx state = ctx := by
  unfold ui_face_set_state
  by_cases h1 : FACE_STATE_COUNT ≤ state
  · rw [if_pos h1]
  · rw [if_neg h1, if_pos h]

/-- C10 witness: re-selecting the stored state 0 changes nothing. -/
theorem C10_witness :
    (0 : ℕ) = ({ s_state := 0, face := ui_face_init_state } : StatesCtx).s_state ∧
    ui_face_set_state { s_state := 0, face := ui_face_init_state } 0 =
      { s_state := 0, face := ui_face_init_state } :=
  ⟨rfl, C10_thm { s_state := 0, face := ui_face_init_state } 0 rfl⟩


/-- C5: for every prior state, target snapshot, transition duration and
random stream, all discrete/flag fields of the current snapshot (eye style,
primary and secondary colors, pulse, pulse_speed, flash, talking, sparkle,
love_bubbles, alert_police, show_alert_text) equal the target's values
after exactly one tick following `ui_face_set_params`, regardless of
transition progress. -/
theorem C5_thm (st : FaceState) (p : FaceParams) (ms : ℕ) (rnd : List ℕ) :
    discEq ((face_tick_cb (ui_face_set_params st (some p) ms) rnd).1).s_cur p := by
  rw [tick_cur_discrete]
  have h1 : (face_step_transition
      { ui_face_set_params st (some p) ms with
        s_frame := (ui_face_set_params st (some p) ms).s_frame + 1 }).s_tgt = p := by
    rw [transition_tgt]
    exact set_params_tgt st p ms
  have h2 := discrete_sets (face_step_transition
      { ui_face_set_params st (some p) ms with
        s_frame := (ui_face_set_params st (some p) ms).s_frame + 1 })
  rw [h1] at h2
  exact h2

/-- C7: the gaze-wander reseed always assigns a target gaze within the
declared bounds (x ∈ [-15, 15], y ∈ [-10, 10]) for every random-source
value, and across any number of tick firings an in-bounds target gaze
never leaves those bounds. -/
theorem C7_thm (st : FaceState) (rnd : List ℕ) (n : ℕ) :
    (st.s_wander_timer ≤ 1 →
      gaze_in_bounds ((face_animate_step st rnd).1).s_tgt.gaze) ∧
    (gaze_in_bounds st.s_tgt.gaze →
      gaze_in_bounds ((ticks n st rnd).1).s_tgt.gaze) := by
  constructor
  · intro h
    show gaze_in_bounds ((face_step_wander _ _).1).s_tgt.gaze
    refine wander_fire_gaze _ _ ?_
    rw [blink_wander_timer, discrete_wander_timer, transition_wander_timer]
    exact h
  · induction n generalizing st rnd with
    | zero => exact fun h => h
    | succ m ih =>
      intro h
      show gaze_in_bounds
        ((ticks m (face_tick_cb st rnd).1 (face_tick_cb st rnd).2).1).s_tgt.gaze
      exact ih _ _ (tick_gaze_bounds st rnd h)

/-- C7 witness: with the wander timer at 1 (firing now) and the zero
random stream, the reseeded target gaze is in bounds; and from the initial
state the target gaze is still in bounds after 2 ticks. -/
theorem C7_witness :
    (({ ui_face_init_state with s_wander_timer := 1 } : FaceState).s_wander_timer ≤ 1 ∧
     gaze_in_bounds ((face_animate_step
       { ui_face_init_state with s_wander_timer := 1 } []).1).s_tgt.gaze) ∧
    (gaze_in_bounds ui_face_init_state.s_tgt.gaze ∧
     gaze_in_bounds ((ticks 2 ui_face_init_state []).1).s_tgt.gaze) :=
  ⟨⟨by decide,
    (C7_thm { ui_face_init_state with s_wander_timer := 1 } [] 0).1
      (by decide)⟩,
   ⟨by with_unfolding_all decide,
    (C7_thm ui_face_init_state [] 2).2 (by with_unfolding_all decide)⟩⟩


set_option maxRecDepth 4000 in
/-- C3 counterexample: the claim fails for `pupil_size`, which the spec
lists among the continuous fields: setting a target that differs only in
`pupil_size` (0.1) with duration 33 ms and ticking ⌈33/33⌉ = 1 time leaves
progress at 1 but `pupil_size` still at its prior value 0.85 ≠ 0.1 — the
engine interpolates every continuous field except `pupil_size`. -/
theorem C3_counterexample :
    (ticks 1 (ui_face_set_params ui_face_init_state
        (some { DEFAULT_PARAMS with pupil_size := (1/10 : ℚ) }) 33) []).1.s_trans_progress
      = 1 ∧
    (ticks 1 (ui_face_set_params ui_face_init_state
        (some { DEFAULT_PARAMS with pupil_size := (1/10 : ℚ) }) 33) []).1.s_cur.pupil_size
      ≠ ({ DEFAULT_PARAMS with pupil_size := (1/10 : ℚ) } : FaceParams).pupil_size := by
  refine ⟨by with_unfolding_all decide, by with_unfolding_all decide⟩

/-- C3 (amended): for every prior state, target snapshot `p` and duration
D > 0, provided the wander timer does not fire within the next
⌈D/33⌉ ticks, calling `ui_face_set_params` with duration D and ticking
⌈D/33⌉ times leaves transition progress at exactly 1 and every interpolated
continuous field (eye openness, eye size, gaze x/y, mouth smile/open/width,
happiness, brightness, glow intensity — i.e. all continuous fields except
`pupil_size`, which the engine never interpolates) equal to the target;
ticking 0 times leaves the current snapshot unchanged. -/
theorem C3_amended_thm (st : FaceState) (p : FaceParams) (D : ℕ) (rnd : List ℕ)
    (hD : 0 < D) (hw : (((D + 32) / 33 : ℕ) : ℤ) < st.s_wander_timer) :
    (ticks 0 (ui_face_set_params st (some p) D) rnd).1.s_cur = st.s_cur ∧
    (ticks ((D + 32) / 33) (ui_face_set_params st (some p) D) rnd).1.s_trans_progress
      = 1 ∧
    contEqI (ticks ((D + 32) / 33)
      (ui_face_set_params st (some p) D) rnd).1.s_cur p := by
  have hD' : (0 : ℚ) < (D : ℚ) := by exact_mod_cast hD
  have hsp : (0 : ℚ) < 33 / (D : ℚ) := by positivity
  have hspd : (ui_face_set_params st (some p) D).s_trans_speed = 33 / (D : ℚ) := by
    unfold ui_face_set_params
    dsimp only
    rw [if_neg (by omega : ¬ D = 0)]
    dsimp only
    rw [if_pos (by positivity : ((D : ℚ) / 33) > 0), one_div_div]
  have htgt := set_params_tgt st p D
  have hpr : (ui_face_set_params st (some p) D).s_trans_progress
      = min 1 (0 * (33 / (D : ℚ))) := by
    unfold ui_face_set_params
    dsimp only
    rw [if_neg (by omega : ¬ D = 0)]
    norm_num
  obtain ⟨g1, g2, g3, g4⟩ := ticks_inv p (33 / (D : ℚ)) hsp ((D + 32) / 33) 0
    (ui_face_set_params st (some p) D) rnd htgt hspd hpr
    (fun h => absurd h (by norm_num))
    (by rw [set_params_wander]; exact hw)
  have hn : (D : ℚ) ≤ 33 * (((D + 32) / 33 : ℕ) : ℚ) := by
    exact_mod_cast (by omega : D ≤ 33 * ((D + 32) / 33))
  have hge : 1 ≤ (0 + (((D + 32) / 33 : ℕ) : ℚ)) * (33 / (D : ℚ)) := by
    rw [zero_add, mul_div_assoc']
    rw [le_div_iff hD']
    linarith
  exact ⟨set_params_cur_pos st p D (by omega), by rw [g3, min_eq_left hge], g4 hge⟩

/-- C3 witness: target PRESENCE, duration 33 ms (one tick) from the initial
state: progress lands at exactly 1 and the interpolated fields equal the
target. -/
theorem C3_witness :
    0 < 33 ∧
    ((((33 + 32) / 33 : ℕ) : ℤ) < ui_face_init_state.s_wander_timer) ∧
    ((ticks 0 (ui_face_set_params ui_face_init_state (some (PRESETS 1)) 33) []).1.s_cur
        = ui_face_init_state.s_cur ∧
     (ticks ((33 + 32) / 33)
        (ui_face_set_params ui_face_init_state (some (PRESETS 1)) 33) []).1.s_trans_progress
        = 1 ∧
     contEqI (ticks ((33 + 32) / 33)
        (ui_face_set_params ui_face_init_state (some (PRESETS 1)) 33) []).1.s_cur
        (PRESETS 1)) :=
  ⟨by norm_num, by decide,
   C3_amended_thm ui_face_init_state (PRESETS 1) 33 [] (by norm_num) (by decide)⟩


/-- C8: while a transition is in progress with a fixed target (the wander
timer does not fire within the `n` observed ticks, and no new set_target
occurs), every interpolated continuous field moves monotonically in the
direction of the target and never passes beyond it: at every tick
`k < n`, the next current value lies between the previous current value
and the (fixed) target value. -/
theorem C8_thm (st : FaceState) (rnd : List ℕ) (n : ℕ) (f : ContField)
    (h0 : 0 ≤ st.s_trans_progress) (hs : 0 ≤ st.s_trans_speed)
    (hw : (n : ℤ) < st.s_wander_timer) :
    ∀ k, k < n →
      ((f.get ((ticks k st rnd).1).s_cur ≤ f.get st.s_tgt →
        f.get ((ticks k st rnd).1).s_cur ≤ f.get ((ticks (k+1) st rnd).1).s_cur ∧
        f.get ((ticks (k+1) st rnd).1).s_cur ≤ f.get st.s_tgt) ∧
       (f.get st.s_tgt ≤ f.get ((ticks k st rnd).1).s_cur →
        f.get ((ticks (k+1) st rnd).1).s_cur ≤ f.get ((ticks k st rnd).1).s_cur ∧
        f.get st.s_tgt ≤ f.get ((ticks (k+1) st rnd).1).s_cur)) := by
  intro k hk
  have hkw : (k : ℤ) < st.s_wander_timer := by omega
  obtain ⟨b1, b2, b3, b4⟩ := ticks_frame_inv st rnd h0 hs k hkw
  have hb := tick_between (ticks k st rnd).1 (ticks k st rnd).2 f b2
    (by rw [b3]; exact hs)
  rw [b1] at hb
  rw [ticks_succ_right k st rnd]
  exact hb

/-- C8 witness: a 330 ms transition from idle toward the PRESENCE preset,
at tick 0: eye openness starts below the target 0.92 and after one tick
has moved up without passing it. -/
theorem C8_witness :
    0 ≤ (ui_face_set_params ui_face_init_state
      (some (PRESETS 1)) 330).s_trans_progress ∧
    0 ≤ (ui_face_set_params ui_face_init_state
      (some (PRESETS 1)) 330).s_trans_speed ∧
    ((2 : ℕ) : ℤ) < (ui_face_set_params ui_face_init_state
      (some (PRESETS 1)) 330).s_wander_timer ∧
    (ContField.openness.get ((ticks 0 (ui_face_set_params ui_face_init_state
        (some (PRESETS 1)) 330) []).1).s_cur ≤
      ContField.openness.get (ui_face_set_params ui_face_init_state
        (some (PRESETS 1)) 330).s_tgt ∧
     ContField.openness.get ((ticks 0 (ui_face_set_params ui_face_init_state
        (some (PRESETS 1)) 330) []).1).s_cur ≤
      ContField.openness.get ((ticks 1 (ui_face_set_params ui_face_init_state
        (some (PRESETS 1)) 330) []).1).s_cur ∧
     ContField.openness.get ((ticks 1 (ui_face_set_params ui_face_init_state
        (some (PRESETS 1)) 330) []).1).s_cur ≤
      ContField.openness.get (ui_face_set_params ui_face_init_state
        (some (PRESETS 1)) 330).s_tgt) := by
  refine ⟨by with_unfolding_all decide, by with_unfolding_all decide,
    by with_unfolding_all decide, ?_⟩
  have hle : ContField.openness.get ((ticks 0 (ui_face_set_params ui_face_init_state
      (some (PRESETS 1)) 330) []).1).s_cur ≤
      ContField.openness.get (ui_face_set_params ui_face_init_state
        (some (PRESETS 1)) 330).s_tgt := by
    with_unfolding_all decide
  have hc := (C8_thm (ui_face_set_params ui_face_init_state (some (PRESETS 1)) 330)
    [] 2 ContField.openness (by with_unfolding_all decide)
    (by with_unfolding_all decide) (by with_unfolding_all decide)
    0 (by norm_num)).1 hle
  exact ⟨hle, hc.1, hc.2⟩


/-- C9: the renderer is side-effect-free with respect to animation state:
`face_draw_cb` leaves the whole module state (current snapshot, target
snapshot, transition progress and speed, and all micro-animation timers)
unchanged, and the primitives it emits depend only on what it reads — the
current snapshot, the blink phase and the frame counter. -/
theorem C9_thm (sinq : ℚ → ℚ) (st st' : FaceState) :
    (face_draw_cb sinq st).2 = st ∧
    (st.s_cur = st'.s_cur → st.s_blink_phase = st'.s_blink_phase →
      st.s_frame = st'.s_frame →
      (face_draw_cb sinq st).1 = (face_draw_cb sinq st').1) := by
  refine ⟨rfl, ?_⟩
  intro h1 h2 h3
  obtain ⟨c1, t1, pr1, sp1, bt1, bp1, wt1, fr1⟩ := st
  obtain ⟨c2, t2, pr2, sp2, bt2, bp2, wt2, fr2⟩ := st'
  dsimp only at h1 h2 h3
  subst h1
  subst h2
  subst h3
  rfl

/-- C9 witness: rendering the initial state returns the state unchanged,
and a state differing only in fields the renderer does not read (here the
transition progress) produces the same primitive list. -/
theorem C9_witness :
    (face_draw_cb (fun _ => 0) ui_face_init_state).2 = ui_face_init_state ∧
    (face_draw_cb (fun _ => 0) ui_face_init_state).1 =
      (face_draw_cb (fun _ => 0)
        { ui_face_init_state with s_trans_progress := 0 }).1 :=
  ⟨(C9_thm (fun _ => 0) ui_face_init_state ui_face_init_state).1,
   (C9_thm (fun _ => 0) ui_face_init_state
     { ui_face_init_state with s_trans_progress := 0 }).2 rfl rfl rfl⟩

end UiFace